import Mathlib

/-!
Shallow embedding of the gtfs-upcoming schedule database and transit engine
(src/gtfs_upcoming/schedule/database.py and src/gtfs_upcoming/transit.py).

Modelling conventions:
- Dates are integers counting days from an epoch chosen so that day 0 is a
  Monday; `weekday d = d.emod 7` therefore matches Python date.weekday()
  (monday = 0 .. sunday = 6).
- Datetimes are integers counting whole seconds on the same timeline;
  `combine(date, time-of-day) = date * 86400 + tod`, `.date() = fdiv 86400`,
  `.time() = emod 86400`.  All times appearing in the program are whole
  seconds, so the float-valued total_seconds() of the source is modelled
  exactly by integer subtraction.
- `datetime.fromtimestamp` and local-time formatting are modelled with the
  local timezone taken as UTC on the shared timeline.
- Python exceptions that escape a function are modelled with `Except Unit`;
  exceptions caught inside a loop body (the try/except in get_scheduled_for)
  become `Option` results of the parsing helpers.
- The wall clock `now()` is modelled as a pinned parameter `nowT`, matching
  the test override described by the source.
-/

/-- Association-list lookup, modelling Python dict.get. -/
def lookupA {κ α : Type} [DecidableEq κ] : List (κ × α) → κ → Option α
  | [], _ => none
  | p :: rest, k => if p.1 = k then some p.2 else lookupA rest k

/-- Value of a list of decimal digit characters; none if empty or non-digit. -/
def digitsVal : List Char → Option Nat
  | [] => none
  | cs =>
    cs.foldl (fun acc c =>
      acc.bind (fun n => if c.isDigit then some (n * 10 + (c.toNat - 48)) else none))
      (some 0)

/-- Python int(s) on plain decimal strings (optional sign, digits);
returns none where int() raises ValueError. -/
def pyInt (s : String) : Option Int :=
  match s.data with
  | '-' :: rest => (digitsVal rest).map (fun n => -(n : Int))
  | '+' :: rest => (digitsVal rest).map (fun n => (n : Int))
  | cs => (digitsVal cs).map (fun n => (n : Int))

/-- Split a character list at each colon, modelling str.split of Python. -/
def splitColonAux : List Char → List Char → List String
  | [], acc => [String.mk acc.reverse]
  | c :: rest, acc =>
    if c = ':' then String.mk acc.reverse :: splitColonAux rest []
    else splitColonAux rest (c :: acc)

/-- str.split of a string on the colon character. -/
def splitColon (s : String) : List String :=
  splitColonAux s.data []

/-- Parse an HH:MM:SS string into three integers; none models the ValueError
raised by unpacking into three variables or by int(). -/
def parseHMS (s : String) : Option (Int × Int × Int) :=
  match splitColon s with
  | [a, b, c] =>
    match pyInt a, pyInt b, pyInt c with
    | some h, some m, some sec => some (h, m, sec)
    | _, _, _ => none
  | _ => none

/-- Two-digit zero padding, as in strftime. -/
def pad2 (n : Int) : String :=
  if n < 10 then "0" ++ toString n else toString n

/-- Format a time-of-day in seconds (0 <= t < 86400) as HH:MM:SS. -/
def fmtHMS (t : Int) : String :=
  pad2 (t.fdiv 3600) ++ ":" ++ pad2 ((t.emod 3600).fdiv 60) ++ ":" ++ pad2 (t.emod 60)

/-- Inclusive list of dates lo..hi, modelling the service-date while loop. -/
def dateRange (lo hi : Int) : List Int :=
  (List.range (hi + 1 - lo).toNat).map (fun i => lo + (i : Int))

/-- Route record of schedule/database.py. -/
structure Route where
  route_id : String
  short_name : String
  long_name : String
  route_type : String
  inferred_headsign : String
  inferred_direction_id : String
  inferred_service_id : String
deriving DecidableEq, Repr

/-- One row of stop_times.txt as stored in the database (a dict of strings
in the source; only the consumed columns are modelled). -/
structure StopTimeRow where
  trip_id : String
  stop_id : String
  stop_sequence : String
  arrival_time : String
  departure_time : String
deriving DecidableEq, Repr

/-- Trip record of schedule/database.py. -/
structure Trip where
  trip_id : String
  trip_headsign : String
  direction_id : String
  service_id : String
  route : Route
  stop_times : List StopTimeRow
deriving DecidableEq, Repr

/-- A calendar.txt row after load: the seven weekday flags are kept as the
strings "0"/"1" exactly as in the source dict, the two dates are parsed. -/
structure Service where
  monday : String
  tuesday : String
  wednesday : String
  thursday : String
  friday : String
  saturday : String
  sunday : String
  start_date : Int
  end_date : Int
deriving DecidableEq, Repr

/-- Python dict .get(day) on a calendar row for the weekday columns. -/
def Service.get (s : Service) (day : String) : Option String :=
  if day = "monday" then some s.monday
  else if day = "tuesday" then some s.tuesday
  else if day = "wednesday" then some s.wednesday
  else if day = "thursday" then some s.thursday
  else if day = "friday" then some s.friday
  else if day = "saturday" then some s.saturday
  else if day = "sunday" then some s.sunday
  else none

/-- CALENDAR_DAYS of schedule/database.py. -/
def CALENDAR_DAYS : List String :=
  ["monday", "tuesday", "wednesday", "thursday", "friday", "saturday", "sunday"]

/-- CALENDAR_SERVICE_NOT_AVAILABLE of schedule/database.py. -/
def CALENDAR_SERVICE_NOT_AVAILABLE : String := "0"

/-- CALENDAR_EXCEPTION_SERVICE_ADDED of schedule/database.py. -/
def SERVICE_ADDED : String := "1"

/-- CALENDAR_EXCEPTION_SERVICE_REMOVED of schedule/database.py. -/
def SERVICE_REMOVED : String := "2"

/-- date.weekday(): monday = 0 .. sunday = 6 (day 0 of the epoch is a Monday). -/
def weekday (d : Int) : Nat :=
  (d.emod 7).toNat

/-- The loaded Database state of schedule/database.py: stops index, trip and
route tables, calendar and calendar-exception tables. -/
structure Database where
  stops_db : List (String × List StopTimeRow)
  trip_db : List (String × Trip)
  route_db : List (String × Route)
  calendar_db : List (String × Service)
  exceptions_db : List (String × List (Int × String))

/-- Database.get_trip (the metrics counter is unmodelled). -/
def get_trip (db : Database) (trip_id : String) : Option Trip :=
  lookupA db.trip_db trip_id

/-- Database.get_route. -/
def get_route (db : Database) (route_id : String) : Option Route :=
  lookupA db.route_db route_id

/-- Database._is_valid_service_day. -/
def is_valid_service_day (db : Database) (dt : Int) (trip : Trip) : Bool :=
  match lookupA db.calendar_db trip.service_id with
  | none => false
  | some service =>
    if dt < service.start_date ∨ dt > service.end_date then false
    else
      let day := CALENDAR_DAYS.getD (weekday dt) ""
      let exc := lookupA ((lookupA db.exceptions_db trip.service_id).getD []) dt
      if service.get day = some CALENDAR_SERVICE_NOT_AVAILABLE then
        decide (exc = some SERVICE_ADDED)
      else decide (exc ≠ some SERVICE_REMOVED)

/-- Body of the per-StopTime loop of get_scheduled_for: parse the arrival
time (ValueError is caught and skips the whole row), build the candidate
(service_date, arrival_datetime) pairs for service dates start.date()-1 ..
end.date(), and keep the trip for every candidate on a valid service day
whose arrival falls inside [start, end]. -/
def scheduled_for_stop (db : Database) (start end_ : Int) (s : StopTimeRow) : List Trip :=
  match parseHMS s.arrival_time with
  | none => []
  | some (h, m, sec) =>
    let delta : Int := if h ≥ 24 then 1 else 0
    let h := if h ≥ 24 then h - 24 else h
    if 0 ≤ h ∧ h < 24 ∧ 0 ≤ m ∧ m < 60 ∧ 0 ≤ sec ∧ sec < 60 then
      let possibles := (dateRange (start.fdiv 86400 - 1) (end_.fdiv 86400)).map
        (fun d => (d, (d + delta) * 86400 + h * 3600 + m * 60 + sec))
      possibles.foldl (fun acc p =>
        match get_trip db s.trip_id with
        | none => acc
        | some trip =>
          if is_valid_service_day db p.1 trip ∧ start ≤ p.2 ∧ p.2 ≤ end_ then
            acc ++ [trip]
          else acc) []
    else []

/-- Database.get_scheduled_for.  The unknown-stop (or empty stop list) check
precedes the end < start check, exactly as in the source; `Except.error ()`
models the raised ValueError. -/
def get_scheduled_for (db : Database) (stop_id : String) (start end_ : Int) :
    Except Unit (List Trip) :=
  match lookupA db.stops_db stop_id with
  | none => .ok []
  | some stops =>
    if stops = [] then .ok []
    else if end_ < start then .error ()
    else .ok (stops.foldl (fun ret s => ret ++ scheduled_for_stop db start end_ s) [])

/-- transit.parse_time: HH:MM:SS against the date of the pinned clock; hours
of 24 or more advance the base date; none models the ValueError raised by
datetime.time on out-of-range components. -/
def parse_time (nowT : Int) (s : String) : Option Int :=
  match parseHMS s with
  | none => none
  | some (h, m, sec) =>
    let base := nowT.fdiv 86400
    let base := if h ≥ 24 then base + h.fdiv 24 else base
    let h := if h ≥ 24 then h.emod 24 else h
    if 0 ≤ h ∧ h < 24 ∧ 0 ≤ m ∧ m < 60 ∧ 0 ≤ sec ∧ sec < 60 then
      some (base * 86400 + h * 3600 + m * 60 + sec)
    else none

/-- transit.delta_seconds (whole seconds, so the float is exact). -/
def delta_seconds (now_time then_ : Int) : Int :=
  now_time - then_

/-- ROUTE_TYPES of schedule/database.py; none models the KeyError on an
unknown route_type code. -/
def route_type_name (code : String) : Option String :=
  lookupA [("0", "TRAM"), ("1", "SUBWAY"), ("2", "RAIL"), ("3", "BUS"),
           ("4", "FERRY"), ("5", "CABLE_TRAM"), ("6", "AERIAL_LIFT"),
           ("7", "FUNICULAR"), ("11", "TROLLEYBUS"), ("12", "MONORAIL")] code

/-- The Upcoming record of transit.py.  due_in_seconds is integral (see the
header note on whole-second datetimes). -/
structure Upcoming where
  trip_id : String
  route : String
  route_type : String
  headsign : String
  direction : String
  stop_id : String
  due_time : String
  due_in_seconds : Int
  source : String
  canceled : Bool
  added_to_schedule : Bool
deriving DecidableEq, Repr

/-- Upcoming.from_trip; none models the KeyError from the ROUTE_TYPES lookup. -/
def Upcoming.from_trip (trip : Trip) (stop_id source : String) (due current : Int)
    (canceled added_to_schedule : Bool) : Option Upcoming :=
  (route_type_name trip.route.route_type).map (fun rt =>
    { trip_id := trip.trip_id
      route := trip.route.short_name
      route_type := rt
      headsign := trip.trip_headsign
      direction := trip.direction_id
      stop_id := stop_id
      due_time := fmtHMS (due.emod 86400)
      due_in_seconds := delta_seconds due current
      source := source
      canceled := canceled
      added_to_schedule := added_to_schedule })

/-- Stable insertion into a list sorted by due_in_seconds (ties keep the
existing element first, matching the stability of Python sorted). -/
def insertByDue (u : Upcoming) : List Upcoming → List Upcoming
  | [] => [u]
  | v :: vs =>
    if u.due_in_seconds ≤ v.due_in_seconds then u :: v :: vs
    else v :: insertByDue u vs

/-- Stable sort ascending by due_in_seconds, modelling Python sorted with
key due_in_seconds. -/
def sortByDue : List Upcoming → List Upcoming
  | [] => []
  | u :: us => insertByDue u (sortByDue us)

/-- Per-trip body of Transit.get_scheduled: find the arrival_time of the
first StopTime of the trip at this stop; a parse_time or ROUTE_TYPES failure
propagates as an exception. -/
def upcomingForTrip (nowT : Int) (stop_id : String) (trip : Trip) :
    Except Unit (Option Upcoming) :=
  match trip.stop_times.find? (fun st => st.stop_id = stop_id) with
  | none => .ok none
  | some st =>
    match parse_time nowT st.arrival_time with
    | none => .error ()
    | some due =>
      match Upcoming.from_trip trip stop_id "SCHEDULE" due nowT false false with
      | none => .error ()
      | some u => .ok (some u)

/-- Transit.get_scheduled: each interesting stop is queried for the window
[now, now + 120 minutes]; the result is sorted ascending by due_in_seconds. -/
def get_scheduled (db : Database) (nowT : Int) (interesting_stops : List String) :
    Except Unit (List Upcoming) := do
  let ret ← interesting_stops.foldlM (fun (acc : List Upcoming) stop_id => do
    let trips ← get_scheduled_for db stop_id nowT (nowT + 7200)
    trips.foldlM (fun acc2 trip => do
      match ← upcomingForTrip nowT stop_id trip with
      | none => pure acc2
      | some u => pure (acc2 ++ [u])) acc) []
  pure (sortByDue ret)

/-- A StopTimeEvent of the realtime feed: optional delay and time fields
(presence modelled with Option, matching protobuf HasField). -/
structure StopTimeEvent where
  delay : Option Int
  time : Option Int
deriving DecidableEq, Repr

/-- A StopTimeUpdate of the realtime feed. -/
structure StopTimeUpdate where
  stop_sequence : Int
  stop_id : String
  arrival : Option StopTimeEvent
  departure : Option StopTimeEvent
deriving DecidableEq, Repr

/-- Schedule relationship enum values of the canonical gtfs-realtime schema. -/
def SR_SCHEDULED : Nat := 0

/-- ADDED value of the schedule relationship enum. -/
def SR_ADDED : Nat := 1

/-- CANCELED value of the schedule relationship enum. -/
def SR_CANCELED : Nat := 3

/-- TripDescriptor of the realtime feed. -/
structure TripDescriptor where
  trip_id : String
  route_id : String
  schedule_relationship : Nat
deriving DecidableEq, Repr

/-- TripUpdate of the realtime feed. -/
structure TripUpdate where
  trip : TripDescriptor
  stop_time_update : List StopTimeUpdate
deriving DecidableEq, Repr

/-- FeedEntity of the realtime feed (only the trip_update field is read). -/
structure FeedEntity where
  trip_update : Option TripUpdate
deriving DecidableEq, Repr

/-- datetime.fromtimestamp(t).strftime of transit.py, on the modelled
timeline (local timezone taken as UTC). -/
def formatTs (t : Int) : String :=
  fmtHMS (t.emod 86400)

/-- Stop-times synthesis loop of Transit._build_trip_from_update: for each
update at an interesting stop, take arrival.time then let departure.time
override it; a missing or zero (falsy) timestamp discards the entry. -/
def addedStopTimes (trip_id : String) (interesting_stops : List String) :
    List StopTimeUpdate → List StopTimeRow
  | [] => []
  | stu :: rest =>
    if stu.stop_id ∈ interesting_stops then
      let t0 : Option Int := match stu.arrival with
        | some a => a.time
        | none => none
      let t1 : Option Int := match stu.departure with
        | some d => match d.time with
          | some dt => some dt
          | none => t0
        | none => t0
      match t1 with
      | none => addedStopTimes trip_id interesting_stops rest
      | some tm =>
        if tm = 0 then addedStopTimes trip_id interesting_stops rest
        else
          { trip_id := trip_id
            stop_id := stu.stop_id
            stop_sequence := toString stu.stop_sequence
            arrival_time := formatTs tm
            departure_time := formatTs tm } :: addedStopTimes trip_id interesting_stops rest
    else addedStopTimes trip_id interesting_stops rest

/-- Transit._build_trip_from_update. -/
def build_trip_from_update (db : Database) (tu : TripUpdate)
    (interesting_stops : List String) : Option Trip :=
  match get_route db tu.trip.route_id with
  | none => none
  | some route =>
    let sts := addedStopTimes tu.trip.trip_id interesting_stops tu.stop_time_update
    if sts = [] then none
    else some { trip_id := tu.trip.trip_id
                trip_headsign := route.inferred_headsign
                direction_id := route.inferred_direction_id
                service_id := route.inferred_service_id
                route := route
                stop_times := sts }

/-- One stop_time_update applied to the running arrival value (SCHEDULED
walk): a present arrival.delay adds seconds, a present arrival.time replaces
the value; departure is not read. -/
def applyStu (stu : StopTimeUpdate) (v : Int) : Int :=
  match stu.arrival with
  | none => v
  | some a =>
    let v1 := match a.delay with
      | some d => v + d
      | none => v
    match a.time with
    | some tm => tm
    | none => v1

/-- The stop_time_update walk of Transit.get_live: apply entries whose
stop_sequence is at most the target sequence and stop at the first entry
past it. -/
def applyUpdates (l : List StopTimeUpdate) (seq : Int) (v : Int) : Int :=
  match l with
  | [] => v
  | stu :: rest =>
    if stu.stop_sequence ≤ seq then applyUpdates rest seq (applyStu stu v)
    else v

/-- The scan of trip stop_times for the first interesting stop. -/
def findInteresting (stop_times : List StopTimeRow) (interesting_stops : List String) :
    Option StopTimeRow :=
  stop_times.find? (fun st => decide (st.stop_id ∈ interesting_stops))

/-- The stop-times scan of get_live: sequence, arrival time and stop_id
default to (-1, fromtimestamp(1), "") and are filled from the first StopTime
at an interesting stop; int() or parse_time raising there is an error. -/
def liveStopData (nowT : Int) (interesting_stops : List String) (t : Trip) :
    Except Unit (Int × Int × String) :=
  match findInteresting t.stop_times interesting_stops with
  | none => .ok ((-1 : Int), (1 : Int), "")
  | some st =>
    match pyInt st.stop_sequence, parse_time nowT st.arrival_time with
    | some sq, some at_ => .ok (sq, at_, st.stop_id)
    | _, _ => .error ()

/-- Tail of the get_live loop body: apply the realtime updates when the
entity is SCHEDULED, suppress a SCHEDULED entity whose updated arrival has
passed, and emit the Upcoming record. -/
def liveFinish (tu : TripUpdate) (t : Trip) (nowT : Int) (p : Int × Int × String) :
    Except Unit (Option Upcoming) :=
  let scheduled := tu.trip.schedule_relationship = SR_SCHEDULED
  let canceled := tu.trip.schedule_relationship = SR_CANCELED
  let added := tu.trip.schedule_relationship = SR_ADDED
  let updated := if scheduled then applyUpdates tu.stop_time_update p.1 p.2.1 else p.2.1
  if scheduled ∧ nowT > updated then .ok none
  else
    match Upcoming.from_trip t p.2.2 "LIVE" updated nowT canceled added with
    | none => .error ()
    | some u => .ok (some u)

/-- The trip resolution of get_live: the database lookup, falling back to
trip synthesis only for a missing trip of an ADDED entity. -/
def resolveTrip (db : Database) (interesting_stops : List String) (tu : TripUpdate) :
    Option Trip :=
  match get_trip db tu.trip.trip_id with
  | some t => some t
  | none =>
    if tu.trip.schedule_relationship = SR_ADDED then
      build_trip_from_update db tu interesting_stops
    else none

/-- Per-entity body of Transit.get_live.  `.ok none` is a skipped entity,
`.error ()` a Python exception escaping get_live (int() or parse_time on a
malformed stop time, or the ROUTE_TYPES KeyError). -/
def processEntity (db : Database) (interesting_stops : List String) (nowT : Int)
    (e : FeedEntity) : Except Unit (Option Upcoming) :=
  match e.trip_update with
  | none => .ok none
  | some tu =>
    match resolveTrip db interesting_stops tu with
    | none => .ok none
    | some t =>
      if ¬(tu.trip.schedule_relationship = SR_SCHEDULED ∨
           tu.trip.schedule_relationship = SR_CANCELED ∨
           tu.trip.schedule_relationship = SR_ADDED) then .ok none
      else
        match liveStopData nowT interesting_stops t with
        | .error _ => .error ()
        | .ok p => liveFinish tu t nowT p

/-- Transit.get_live over an already-decoded feed. -/
def get_live (db : Database) (interesting_stops : List String) (nowT : Int)
    (feed : List FeedEntity) : Except Unit (List Upcoming) :=
  feed.foldlM (fun acc e => do
    match ← processEntity db interesting_stops nowT e with
    | none => pure acc
    | some u => pure (acc ++ [u])) []

/-- Insertion-ordered dict assignment: an existing key keeps its position and
takes the new value, a new key is appended (Python dict semantics). -/
def dictInsert (m : List (String × Upcoming)) (k : String) (v : Upcoming) :
    List (String × Upcoming) :=
  if m.any (fun p => p.1 = k) then
    m.map (fun p => if p.1 = k then (k, v) else p)
  else m ++ [(k, v)]

/-- The dict comprehension building scheduled_by_trip in get_upcoming. -/
def buildKnown (l : List Upcoming) : List (String × Upcoming) :=
  l.foldl (fun m s => dictInsert m s.trip_id s) []

/-- Deletion of a key from the dict (del known_trips[trip_id]). -/
def dictRemove (m : List (String × Upcoming)) (k : String) : List (String × Upcoming) :=
  m.filter (fun p => decide (p.1 ≠ k))

/-- Transit.get_upcoming: scheduled entries are collapsed into a dict keyed
by trip_id, live trip_ids are deleted from it, live entries are followed by
the remaining dict values, canceled entries are removed and the result is
sorted ascending by due_in_seconds. -/
def get_upcoming (db : Database) (interesting_stops : List String) (nowT : Int)
    (feed : List FeedEntity) : Except Unit (List Upcoming) := do
  let scheduled ← get_scheduled db nowT interesting_stops
  let known := buildKnown scheduled
  let live ← get_live db interesting_stops nowT feed
  let remaining := live.foldl (fun m t => dictRemove m t.trip_id) known
  let ret := live ++ remaining.map (fun p => p.2)
  pure (sortByDue (ret.filter (fun t => !t.canceled)))

/-- Test fixture: a bus route. -/
def routeR : Route :=
  { route_id := "R1", short_name := "7", long_name := "Mainline", route_type := "3",
    inferred_headsign := "City", inferred_direction_id := "0",
    inferred_service_id := "ALL" }

/-- Test fixture: a service running every weekday of a wide window. -/
def svcAll : Service :=
  { monday := "1", tuesday := "1", wednesday := "1", thursday := "1",
    friday := "1", saturday := "1", sunday := "1",
    start_date := 0, end_date := 100000 }

/-- Test fixture: the overnight stop-times row (arrival hour 24). -/
def onightRow : StopTimeRow :=
  { trip_id := "ONIGHT", stop_id := "STOP2", stop_sequence := "2",
    arrival_time := "24:30:00", departure_time := "24:30:00" }

/-- Test fixture: the overnight trip. -/
def onightTrip : Trip :=
  { trip_id := "ONIGHT", trip_headsign := "City", direction_id := "0",
    service_id := "ALL", route := routeR, stop_times := [onightRow] }

/-- Test fixture: a database holding the overnight trip. -/
def onightDB : Database :=
  { stops_db := [("STOP2", [onightRow])]
    trip_db := [("ONIGHT", onightTrip)]
    route_db := [("R1", routeR)]
    calendar_db := [("ALL", svcAll)]
    exceptions_db := [] }

/-- Decidable equality for Except results, used to evaluate the embedded
queries on concrete inputs. -/
instance {ε α : Type} [DecidableEq ε] [DecidableEq α] : DecidableEq (Except ε α) := by
  intro a b
  cases a <;> cases b
  case ok.ok x y =>
    exact if h : x = y then .isTrue (by rw [h]) else .isFalse (by intro hc; cases hc; exact h rfl)
  case error.error x y =>
    exact if h : x = y then .isTrue (by rw [h]) else .isFalse (by intro hc; cases hc; exact h rfl)
  case error.ok x y => exact .isFalse (by intro hc; cases hc)
  case ok.error x y => exact .isFalse (by intro hc; cases hc)

/-- Claim C1: for every date and loaded trip, is_valid_service_day returns
true iff the service_id is in the calendar table, the date lies in the
service validity window inclusive, and either the weekday flag is "0" with a
SERVICE_ADDED exception, or the weekday flag is not "0" and there is no
SERVICE_REMOVED exception; in particular it is false when the service_id is
absent from the calendar table. -/
theorem c1_valid_service_day_iff (db : Database) (d : Int) (trip : Trip) :
    is_valid_service_day db d trip = true ↔
    ∃ sv, lookupA db.calendar_db trip.service_id = some sv ∧
      sv.start_date ≤ d ∧ d ≤ sv.end_date ∧
      ((sv.get (CALENDAR_DAYS.getD (weekday d) "") = some CALENDAR_SERVICE_NOT_AVAILABLE ∧
        lookupA ((lookupA db.exceptions_db trip.service_id).getD []) d = some SERVICE_ADDED) ∨
       (sv.get (CALENDAR_DAYS.getD (weekday d) "") ≠ some CALENDAR_SERVICE_NOT_AVAILABLE ∧
        lookupA ((lookupA db.exceptions_db trip.service_id).getD []) d ≠ some SERVICE_REMOVED)) := by
  unfold is_valid_service_day
  cases h : lookupA db.calendar_db trip.service_id with
  | none => simp
  | some sv =>
    simp only []
    constructor
    · intro hv
      refine ⟨sv, rfl, ?_⟩
      by_cases hrange : d < sv.start_date ∨ d > sv.end_date
      · simp [if_pos hrange] at hv
      · rw [if_neg hrange] at hv
        refine ⟨by omega, by omega, ?_⟩
        by_cases hday : sv.get (CALENDAR_DAYS.getD (weekday d) "") =
            some CALENDAR_SERVICE_NOT_AVAILABLE
        · rw [if_pos hday] at hv
          exact Or.inl ⟨hday, of_decide_eq_true hv⟩
        · rw [if_neg hday] at hv
          exact Or.inr ⟨hday, of_decide_eq_true hv⟩
    · rintro ⟨sv', hsv', h1, h2, hcase⟩
      cases hsv'
      rw [if_neg (by omega)]
      rcases hcase with ⟨hday, hexc⟩ | ⟨hday, hexc⟩
      · rw [if_pos hday]; exact decide_eq_true hexc
      · rw [if_neg hday]; exact decide_eq_true hexc

/-- Claim C2: a StopTime whose arrival hour is 24 or more is attributed to
the previous service date (hour minus 24, one day added) and candidate
service dates run from start.date() minus one day through end.date();
consequently, on the overnight fixture, the window [day 100 23:00,
day 101 02:00] returns the trip exactly once, and the window
[day 101 00:00, day 101 02:00] still returns it. -/
theorem c2_overnight_attribution :
    (∀ (db : Database) (start end_ : Int) (st : StopTimeRow) (h m s : Int),
      parseHMS st.arrival_time = some (h, m, s) → 24 ≤ h →
      h - 24 < 24 → 0 ≤ m → m < 60 → 0 ≤ s → s < 60 →
      scheduled_for_stop db start end_ st =
        ((dateRange (start.fdiv 86400 - 1) (end_.fdiv 86400)).map
          (fun d => (d, (d + 1) * 86400 + (h - 24) * 3600 + m * 60 + s))).foldl
          (fun acc p =>
            match get_trip db st.trip_id with
            | none => acc
            | some trip =>
              if is_valid_service_day db p.1 trip ∧ start ≤ p.2 ∧ p.2 ≤ end_ then
                acc ++ [trip]
              else acc) []) ∧
    get_scheduled_for onightDB "STOP2" (100 * 86400 + 82800) (101 * 86400 + 7200) =
      .ok [onightTrip] ∧
    get_scheduled_for onightDB "STOP2" (101 * 86400) (101 * 86400 + 7200) =
      .ok [onightTrip] := by
  refine ⟨?_, by decide, by decide⟩
  intro db start end_ st h m s hp h24 hh hm1 hm2 hs1 hs2
  unfold scheduled_for_stop
  rw [hp]
  simp only [ge_iff_le, h24, if_true]
  rw [if_pos (by omega)]

/-- Witness for claim C2: the general attribution statement applied to the
overnight fixture row at the first concrete window. -/
theorem c2_overnight_attribution_witness :
    parseHMS onightRow.arrival_time = some (24, 30, 0) ∧
    scheduled_for_stop onightDB (100 * 86400 + 82800) (101 * 86400 + 7200) onightRow =
      ((dateRange ((100 * 86400 + 82800 : Int).fdiv 86400 - 1)
          ((101 * 86400 + 7200 : Int).fdiv 86400)).map
        (fun d => (d, (d + 1) * 86400 + ((24 : Int) - 24) * 3600 + 30 * 60 + 0))).foldl
        (fun acc p =>
          match get_trip onightDB onightRow.trip_id with
          | none => acc
          | some trip =>
            if is_valid_service_day onightDB p.1 trip ∧ (100 * 86400 + 82800 : Int) ≤ p.2 ∧
                p.2 ≤ (101 * 86400 + 7200 : Int) then
              acc ++ [trip]
            else acc) [] :=
  ⟨by decide,
   c2_overnight_attribution.1 onightDB (100 * 86400 + 82800) (101 * 86400 + 7200)
     onightRow 24 30 0 (by decide) (by decide) (by decide) (by decide) (by decide)
     (by decide) (by decide)⟩

/-- Claim C7: a trip valid on two consecutive service days, queried with a
window wide enough to contain the arrival on both days, is returned twice by
get_scheduled_for; duplicates are kept. -/
theorem c7_duplicate_trip_kept :
    get_scheduled_for onightDB "STOP2" (99 * 86400 + 82800) (101 * 86400 + 7200) =
      .ok [onightTrip, onightTrip] := by decide

/-- Counterexample for claim C5: with an unknown stop_id and end < start,
get_scheduled_for returns an empty list instead of raising the
invalid-argument error the claim demands for every stop_id. -/
theorem c5_counterexample :
    get_scheduled_for onightDB "NOPE" 10 0 = .ok [] ∧
    get_scheduled_for onightDB "NOPE" 10 0 ≠ .error () := by decide

/-- Claim C5 (amended): the stop lookup precedes the window check, so the
invalid-argument error is raised only when the stop_id is known with a
nonempty row list; an unknown stop_id returns an empty list even when
end < start. -/
theorem c5_window_error_known_stop :
    (∀ (db : Database) (stop_id : String) (start end_ : Int) (l : List StopTimeRow),
      lookupA db.stops_db stop_id = some l → l ≠ [] → end_ < start →
      get_scheduled_for db stop_id start end_ = .error ()) ∧
    (∀ (db : Database) (stop_id : String) (start end_ : Int),
      lookupA db.stops_db stop_id = none →
      get_scheduled_for db stop_id start end_ = .ok []) := by
  constructor
  · intro db stop_id start end_ l hstop hne hlt
    unfold get_scheduled_for
    rw [hstop]
    simp only [if_neg hne, if_pos hlt]
  · intro db stop_id start end_ hstop
    unfold get_scheduled_for
    rw [hstop]

/-- Witness for claim C5: the amended statement applied at a concrete known
stop with an inverted window, and at a concrete unknown stop. -/
theorem c5_window_error_known_stop_witness :
    get_scheduled_for onightDB "STOP2" 10 0 = .error () ∧
    get_scheduled_for onightDB "MISSING" 10 0 = .ok [] :=
  ⟨c5_window_error_known_stop.1 onightDB "STOP2" 10 0 [onightRow] (by decide)
     (by decide) (by decide),
   c5_window_error_known_stop.2 onightDB "MISSING" 10 0 (by decide)⟩

/-- Claim C8: the engine holds no mutable state, so with the clock pinned and
the fetch function returning the same bytes (hence the same decoded feed),
two calls to get_upcoming with the same interesting stops yield identical
result lists. -/
theorem c8_deterministic (db : Database) (stops : List String) (nowT : Int)
    (feed1 feed2 : List FeedEntity) (hfeed : feed1 = feed2) :
    get_upcoming db stops nowT feed1 = get_upcoming db stops nowT feed2 := by
  rw [hfeed]

/-- Witness for claim C8: two identical calls on the overnight fixture. -/
theorem c8_deterministic_witness :
    get_upcoming onightDB ["STOP2"] 0 [] = get_upcoming onightDB ["STOP2"] 0 [] :=
  c8_deterministic onightDB ["STOP2"] 0 [] [] rfl

/-- Test fixture: an ADDED trip update whose only stop_time_update carries
arrival.time = 7 and departure.time = 0, both present. -/
def tu9 : TripUpdate :=
  { trip := { trip_id := "X", route_id := "R1", schedule_relationship := SR_ADDED },
    stop_time_update :=
      [{ stop_sequence := 5, stop_id := "STOP2",
         arrival := some { delay := none, time := some 7 },
         departure := some { delay := none, time := some 0 } }] }

/-- Counterexample for claim C9: in tu9 both arrival.time and departure.time
are present at an interesting stop, yet no StopTime is synthesized at all
(the departure timestamp 0 wins and is then discarded as falsy), so the
synthesized StopTime the claim describes does not exist. -/
theorem c9_counterexample :
    (tu9.stop_time_update.head?.bind (fun stu => stu.arrival.bind (fun a => a.time)) =
      some 7) ∧
    (tu9.stop_time_update.head?.bind (fun stu => stu.departure.bind (fun d => d.time)) =
      some 0) ∧
    build_trip_from_update onightDB tu9 ["STOP2"] = none := by decide

/-- Claim C9 (amended): when both arrival.time and departure.time are present
on a stop_time_update at an interesting stop, the departure timestamp
overrides the arrival timestamp, and provided it is nonzero the synthesized
StopTime formats both arrival_time and departure_time from departure.time;
a zero departure timestamp is treated as missing and the entry is skipped. -/
theorem c9_departure_overrides (trip_id : String) (stops : List String)
    (stu : StopTimeUpdate) (rest : List StopTimeUpdate) (ae de : StopTimeEvent)
    (at_ dt : Int) (hmem : stu.stop_id ∈ stops) (harr : stu.arrival = some ae)
    (_hat : ae.time = some at_) (hdep : stu.departure = some de)
    (hdt : de.time = some dt) (hne : dt ≠ 0) :
    addedStopTimes trip_id stops (stu :: rest) =
      { trip_id := trip_id, stop_id := stu.stop_id,
        stop_sequence := toString stu.stop_sequence,
        arrival_time := formatTs dt, departure_time := formatTs dt } ::
        addedStopTimes trip_id stops rest := by
  rw [addedStopTimes]
  rw [if_pos hmem, harr, hdep]
  simp only []
  rw [hdt]
  simp only [if_neg hne]

/-- Witness for claim C9: the amended statement applied to a concrete update
carrying arrival.time = 7 and departure.time = 9. -/
theorem c9_departure_overrides_witness :
    addedStopTimes "X" ["STOP2"]
      [{ stop_sequence := 5, stop_id := "STOP2",
         arrival := some { delay := none, time := some 7 },
         departure := some { delay := none, time := some 9 } }] =
      { trip_id := "X", stop_id := "STOP2", stop_sequence := toString (5 : Int),
        arrival_time := formatTs 9, departure_time := formatTs 9 } ::
        addedStopTimes "X" ["STOP2"] [] :=
  c9_departure_overrides "X" ["STOP2"]
    { stop_sequence := 5, stop_id := "STOP2",
      arrival := some { delay := none, time := some 7 },
      departure := some { delay := none, time := some 9 } }
    [] { delay := none, time := some 7 } { delay := none, time := some 9 } 7 9
    (by decide) rfl rfl rfl rfl (by decide)

/-- If liveFinish emits an entry that is neither canceled nor added, the
entity was SCHEDULED and survived the passed-stop check, so its due time is
not in the past. -/
theorem liveFinish_nonneg (tu : TripUpdate) (t : Trip) (nowT : Int)
    (p : Int × Int × String) (u : Upcoming)
    (hor : tu.trip.schedule_relationship = SR_SCHEDULED ∨
      tu.trip.schedule_relationship = SR_CANCELED ∨
      tu.trip.schedule_relationship = SR_ADDED)
    (h : liveFinish tu t nowT p = .ok (some u))
    (hc : u.canceled = false) (ha : u.added_to_schedule = false) :
    0 ≤ u.due_in_seconds := by
  unfold liveFinish at h
  simp only [] at h
  split at h <;> rename_i hsched
  · split at h
    · exact absurd h (by simp)
    · rename_i hsk
      split at h
      · exact absurd h (by simp)
      · rename_i u2 hfrom
        have hu2 : u2 = u := by injection h with h1; injection h1
        subst hu2
        unfold Upcoming.from_trip at hfrom
        rw [Option.map_eq_some'] at hfrom
        obtain ⟨rt, hrt, hu⟩ := hfrom
        subst hu
        simp only []
        unfold delta_seconds
        have hle : ¬ nowT > applyUpdates tu.stop_time_update p.1 p.2.1 :=
          fun hgt => hsk ⟨hsched, hgt⟩
        omega
  · rw [if_neg (fun hand => hsched hand.1)] at h
    split at h
    · exact absurd h (by simp)
    · rename_i u2 hfrom
      have hu2 : u2 = u := by injection h with h1; injection h1
      subst hu2
      unfold Upcoming.from_trip at hfrom
      rw [Option.map_eq_some'] at hfrom
      obtain ⟨rt, hrt, hu⟩ := hfrom
      subst hu
      simp only [] at hc ha
      rw [decide_eq_false_iff_not] at hc ha
      tauto

/-- Lifting of liveFinish_nonneg through the skip cases of processEntity. -/
theorem processEntity_nonneg (db : Database) (stops : List String) (nowT : Int)
    (e : FeedEntity) (u : Upcoming)
    (h : processEntity db stops nowT e = .ok (some u))
    (hc : u.canceled = false) (ha : u.added_to_schedule = false) :
    0 ≤ u.due_in_seconds := by
  unfold processEntity at h
  split at h
  · exact absurd h (by simp)
  · rename_i tu htu
    split at h
    · exact absurd h (by simp)
    · rename_i t ht
      split at h
      · exact absurd h (by simp)
      · rename_i hor
        rw [not_not] at hor
        split at h
        · exact absurd h (by simp)
        · rename_i p hp
          exact liveFinish_nonneg tu t nowT p u hor h hc ha

/-- Accumulator-generalized version of the suppression property over the
get_live fold. -/
theorem get_live_aux_nonneg (db : Database) (stops : List String) (nowT : Int) :
    ∀ (feed : List FeedEntity) (acc l : List Upcoming),
      (∀ u ∈ acc, u.canceled = false → u.added_to_schedule = false →
        0 ≤ u.due_in_seconds) →
      (feed.foldlM (fun acc e => do
        match ← processEntity db stops nowT e with
        | none => pure acc
        | some u => pure (acc ++ [u])) acc = .ok l) →
      ∀ u ∈ l, u.canceled = false → u.added_to_schedule = false →
        0 ≤ u.due_in_seconds := by
  intro feed
  induction feed with
  | nil =>
    intro acc l hacc h
    simp only [List.foldlM_nil] at h
    have : acc = l := by injection h
    subst this
    exact hacc
  | cons e rest ih =>
    intro acc l hacc h
    rw [List.foldlM_cons] at h
    cases hpe : processEntity db stops nowT e with
    | error err => rw [hpe] at h; exact absurd h (by simp [Bind.bind, Except.bind])
    | ok o =>
      rw [hpe] at h
      cases o with
      | none =>
        simp only [Bind.bind, Except.bind] at h
        exact ih acc l hacc h
      | some u0 =>
        simp only [Bind.bind, Except.bind] at h
        refine ih (acc ++ [u0]) l ?_ h
        intro v hv
        rcases List.mem_append.mp hv with hv | hv
        · exact hacc v hv
        · rw [List.mem_singleton] at hv
          subst hv
          exact processEntity_nonneg db stops nowT e v hpe

/-- Test fixture: a realtime trip descriptor for the overnight trip marked
CANCELED. -/
def canceledDescr : TripDescriptor :=
  { trip_id := "ONIGHT", route_id := "R1", schedule_relationship := SR_CANCELED }

/-- Test fixture: a feed entity carrying the canceled descriptor. -/
def canceledEntity : FeedEntity :=
  { trip_update := some { trip := canceledDescr, stop_time_update := [] } }

/-- Test fixture: a realtime trip descriptor for the overnight trip marked
ADDED. -/
def addedDescr : TripDescriptor :=
  { trip_id := "ONIGHT", route_id := "R1", schedule_relationship := SR_ADDED }

/-- Test fixture: a feed entity carrying the added descriptor. -/
def addedEntity : FeedEntity :=
  { trip_update := some { trip := addedDescr, stop_time_update := [] } }

/-- Test fixture: a realtime trip descriptor for the overnight trip marked
SCHEDULED. -/
def schedDescr : TripDescriptor :=
  { trip_id := "ONIGHT", route_id := "R1", schedule_relationship := SR_SCHEDULED }

/-- Test fixture: a feed entity carrying the scheduled descriptor. -/
def schedEntity : FeedEntity :=
  { trip_update := some { trip := schedDescr, stop_time_update := [] } }

/-- The entry emitted for canceledEntity at a late clock. -/
def uCanceledLate : Upcoming :=
  { trip_id := "ONIGHT", route := "7", route_type := "BUS", headsign := "City",
    direction := "0", stop_id := "", due_time := "00:00:01",
    due_in_seconds := -999999, source := "LIVE", canceled := true,
    added_to_schedule := false }

/-- The entry emitted for addedEntity at a late clock. -/
def uAddedLate : Upcoming :=
  { trip_id := "ONIGHT", route := "7", route_type := "BUS", headsign := "City",
    direction := "0", stop_id := "", due_time := "00:00:01",
    due_in_seconds := -999999, source := "LIVE", canceled := false,
    added_to_schedule := true }

/-- Claim C6: get_live never returns a SCHEDULED entity (one emitted with
neither the canceled nor the added flag) whose updated arrival is strictly
before the pinned clock, so every such entry has a nonnegative
due_in_seconds; CANCELED and ADDED entities are exempt, as the concrete
fixtures with past due times show. -/
theorem c6_passed_stop_suppression :
    (∀ (db : Database) (stops : List String) (nowT : Int) (feed : List FeedEntity)
      (l : List Upcoming), get_live db stops nowT feed = .ok l →
      ∀ u ∈ l, u.canceled = false → u.added_to_schedule = false →
        0 ≤ u.due_in_seconds) ∧
    get_live onightDB [] 1000000 [canceledEntity] = .ok [uCanceledLate] ∧
    uCanceledLate.canceled = true ∧ uCanceledLate.due_in_seconds < 0 ∧
    get_live onightDB [] 1000000 [addedEntity] = .ok [uAddedLate] ∧
    uAddedLate.added_to_schedule = true ∧ uAddedLate.due_in_seconds < 0 := by
  refine ⟨?_, by decide, by decide, by decide, by decide, by decide, by decide⟩
  intro db stops nowT feed l h
  unfold get_live at h
  exact get_live_aux_nonneg db stops nowT feed [] l (by intro u hu; cases hu) h

/-- The entry emitted for schedEntity at clock 0. -/
def uSchedEarly : Upcoming :=
  { trip_id := "ONIGHT", route := "7", route_type := "BUS", headsign := "City",
    direction := "0", stop_id := "STOP2", due_time := "00:30:00",
    due_in_seconds := 88200, source := "LIVE", canceled := false,
    added_to_schedule := false }

/-- Witness for claim C6: the suppression statement applied to the concrete
scheduled fixture. -/
theorem c6_passed_stop_suppression_witness : 0 ≤ uSchedEarly.due_in_seconds :=
  c6_passed_stop_suppression.1 onightDB ["STOP2"] 0 [schedEntity] [uSchedEarly]
    (by decide) uSchedEarly (by decide) (by decide) (by decide)

/-- Claim C10: a CANCELED entity whose trip is in the database but calls at
no interesting stop is still emitted by get_live, with canceled = true, an
empty stop_id, and a due time derived from POSIX timestamp 1, rather than
being skipped. -/
theorem c10_canceled_without_stop (db : Database) (stops : List String) (nowT : Int)
    (tu : TripUpdate) (t : Trip) (rt : String)
    (hsr : tu.trip.schedule_relationship = SR_CANCELED)
    (ht : get_trip db tu.trip.trip_id = some t)
    (hno : ∀ st ∈ t.stop_times, st.stop_id ∉ stops)
    (hrt : route_type_name t.route.route_type = some rt) :
    get_live db stops nowT [{ trip_update := some tu }] =
      .ok [{ trip_id := t.trip_id, route := t.route.short_name, route_type := rt,
             headsign := t.trip_headsign, direction := t.direction_id,
             stop_id := "", due_time := fmtHMS ((1 : Int).emod 86400),
             due_in_seconds := delta_seconds 1 nowT, source := "LIVE",
             canceled := true, added_to_schedule := false }] := by
  have hres : resolveTrip db stops tu = some t := by
    unfold resolveTrip
    rw [ht]
  have hsd : liveStopData nowT stops t = .ok (-1, 1, "") := by
    unfold liveStopData findInteresting
    rw [List.find?_eq_none.mpr (fun st hst => by simpa using hno st hst)]
  have hfin : liveFinish tu t nowT (-1, 1, "") =
      .ok (some { trip_id := t.trip_id, route := t.route.short_name, route_type := rt,
                  headsign := t.trip_headsign, direction := t.direction_id,
                  stop_id := "", due_time := fmtHMS ((1 : Int).emod 86400),
                  due_in_seconds := delta_seconds 1 nowT, source := "LIVE",
                  canceled := true, added_to_schedule := false }) := by
    unfold liveFinish
    simp only [hsr, SR_CANCELED, SR_SCHEDULED, SR_ADDED]
    rw [if_neg (by simp)]
    unfold Upcoming.from_trip
    rw [hrt]
    simp [Option.map]
  have hpe : processEntity db stops nowT { trip_update := some tu } =
      liveFinish tu t nowT (-1, 1, "") := by
    unfold processEntity
    simp only []
    rw [hres]
    simp only []
    rw [if_neg (by rw [hsr]; simp [SR_CANCELED, SR_SCHEDULED, SR_ADDED])]
    rw [hsd]
  unfold get_live
  simp only [List.foldlM_cons, List.foldlM_nil, hpe, hfin, Bind.bind, Except.bind]
  rfl

/-- Witness for claim C10: the statement applied to the canceled fixture
entity at a late clock. -/
theorem c10_canceled_without_stop_witness :
    get_live onightDB [] 1000000
        [{ trip_update := some { trip := canceledDescr, stop_time_update := [] } }] =
      .ok [{ trip_id := onightTrip.trip_id, route := onightTrip.route.short_name,
             route_type := "BUS", headsign := onightTrip.trip_headsign,
             direction := onightTrip.direction_id, stop_id := "",
             due_time := fmtHMS ((1 : Int).emod 86400),
             due_in_seconds := delta_seconds 1 1000000, source := "LIVE",
             canceled := true, added_to_schedule := false }] :=
  c10_canceled_without_stop onightDB [] 1000000
    { trip := canceledDescr, stop_time_update := [] } onightTrip "BUS"
    (by decide) (by decide) (by decide) (by decide)

/-- The break-at-first-larger-sequence walk equals applying exactly the
prefix of updates whose stop_sequence is at most the target sequence. -/
theorem applyUpdates_eq_takeWhile (l : List StopTimeUpdate) (seq : Int) (v : Int) :
    applyUpdates l seq v =
      (l.takeWhile (fun stu => decide (stu.stop_sequence ≤ seq))).foldl
        (fun w stu => applyStu stu w) v := by
  induction l generalizing v with
  | nil => rfl
  | cons stu rest ih =>
    by_cases h : stu.stop_sequence ≤ seq
    · simp [applyUpdates, List.takeWhile_cons, h, ih]
    · simp [applyUpdates, List.takeWhile_cons, h]

/-- Claim C4: for a SCHEDULED entity whose trip is in the database, the
emitted due time is the static scheduled arrival at the first interesting
stop adjusted by exactly the prefix of stop_time_update entries with
stop_sequence at most that stop's sequence (arrival.delay adds seconds,
arrival.time replaces the value, the walk stops at the first larger
sequence), and the departure field of an update never affects the
adjustment. -/
theorem c4_scheduled_due :
    (∀ (db : Database) (stops : List String) (nowT : Int) (tu : TripUpdate)
      (t : Trip) (st : StopTimeRow) (seq arrT : Int) (rt : String),
      tu.trip.schedule_relationship = SR_SCHEDULED →
      get_trip db tu.trip.trip_id = some t →
      findInteresting t.stop_times stops = some st →
      pyInt st.stop_sequence = some seq →
      parse_time nowT st.arrival_time = some arrT →
      route_type_name t.route.route_type = some rt →
      ¬ nowT >
        (tu.stop_time_update.takeWhile
            (fun stu => decide (stu.stop_sequence ≤ seq))).foldl
          (fun w stu => applyStu stu w) arrT →
      processEntity db stops nowT { trip_update := some tu } =
        .ok (some
          { trip_id := t.trip_id, route := t.route.short_name, route_type := rt,
            headsign := t.trip_headsign, direction := t.direction_id,
            stop_id := st.stop_id,
            due_time := fmtHMS
              (((tu.stop_time_update.takeWhile
                  (fun stu => decide (stu.stop_sequence ≤ seq))).foldl
                (fun w stu => applyStu stu w) arrT).emod 86400),
            due_in_seconds := delta_seconds
              ((tu.stop_time_update.takeWhile
                  (fun stu => decide (stu.stop_sequence ≤ seq))).foldl
                (fun w stu => applyStu stu w) arrT) nowT,
            source := "LIVE", canceled := false, added_to_schedule := false })) ∧
    (∀ (stu : StopTimeUpdate) (dep : Option StopTimeEvent) (v : Int),
      applyStu { stu with departure := dep } v = applyStu stu v) := by
  constructor
  · intro db stops nowT tu t st seq arrT rt hsr ht hfind hseq hpt hrt hnp
    have hres : resolveTrip db stops tu = some t := by
      unfold resolveTrip
      rw [ht]
    have hsd : liveStopData nowT stops t = .ok (seq, arrT, st.stop_id) := by
      unfold liveStopData
      rw [hfind]
      simp only []
      rw [hseq, hpt]
    have hup : applyUpdates tu.stop_time_update seq arrT =
        (tu.stop_time_update.takeWhile
            (fun stu => decide (stu.stop_sequence ≤ seq))).foldl
          (fun w stu => applyStu stu w) arrT := applyUpdates_eq_takeWhile _ _ _
    have hfin : liveFinish tu t nowT (seq, arrT, st.stop_id) =
        .ok (some
          { trip_id := t.trip_id, route := t.route.short_name, route_type := rt,
            headsign := t.trip_headsign, direction := t.direction_id,
            stop_id := st.stop_id,
            due_time := fmtHMS
              (((tu.stop_time_update.takeWhile
                  (fun stu => decide (stu.stop_sequence ≤ seq))).foldl
                (fun w stu => applyStu stu w) arrT).emod 86400),
            due_in_seconds := delta_seconds
              ((tu.stop_time_update.takeWhile
                  (fun stu => decide (stu.stop_sequence ≤ seq))).foldl
                (fun w stu => applyStu stu w) arrT) nowT,
            source := "LIVE", canceled := false, added_to_schedule := false }) := by
      unfold liveFinish
      simp only [hsr, SR_CANCELED, SR_SCHEDULED, SR_ADDED, if_true, true_and]
      rw [hup]
      rw [if_neg hnp]
      unfold Upcoming.from_trip
      rw [hrt]
      simp [Option.map]
    have hpe : processEntity db stops nowT { trip_update := some tu } =
        liveFinish tu t nowT (seq, arrT, st.stop_id) := by
      unfold processEntity
      simp only []
      rw [hres]
      simp only []
      rw [if_neg (by rw [hsr]; simp)]
      rw [hsd]
    rw [hpe, hfin]
  · intro stu dep v
    rfl

/-- Test fixture: a stop_time_update with a 240 second arrival delay before
the interesting stop. -/
def stuDelay : StopTimeUpdate :=
  { stop_sequence := 1, stop_id := "X",
    arrival := some { delay := some 240, time := none }, departure := none }

/-- Test fixture: a SCHEDULED trip update carrying the delay. -/
def tuDelay : TripUpdate :=
  { trip := schedDescr, stop_time_update := [stuDelay] }

/-- Witness for claim C4: the statement applied to the scheduled overnight
fixture with a concrete 240 second delay. -/
theorem c4_scheduled_due_witness :
    processEntity onightDB ["STOP2"] 0 { trip_update := some tuDelay } =
      .ok (some
        { trip_id := onightTrip.trip_id, route := onightTrip.route.short_name,
          route_type := "BUS", headsign := onightTrip.trip_headsign,
          direction := onightTrip.direction_id, stop_id := onightRow.stop_id,
          due_time := fmtHMS
            (((tuDelay.stop_time_update.takeWhile
                (fun stu => decide (stu.stop_sequence ≤ 2))).foldl
              (fun w stu => applyStu stu w) 88200).emod 86400),
          due_in_seconds := delta_seconds
            ((tuDelay.stop_time_update.takeWhile
                (fun stu => decide (stu.stop_sequence ≤ 2))).foldl
              (fun w stu => applyStu stu w) 88200) 0,
          source := "LIVE", canceled := false, added_to_schedule := false }) :=
  c4_scheduled_due.1 onightDB ["STOP2"] 0 tuDelay onightTrip onightRow 2 88200 "BUS"
    (by decide) (by decide) (by decide) (by decide) (by decide) (by decide) (by decide)

/-- The Bool any condition of dictInsert expressed through the lookup. -/
theorem any_key (m : List (String × Upcoming)) (k : String) :
    (m.any fun p => decide (p.1 = k)) = (lookupA m k).isSome := by
  induction m with
  | nil => rfl
  | cons p rest ih =>
    by_cases hp : p.1 = k
    · simp [List.any_cons, hp, lookupA]
    · simp [List.any_cons, hp, lookupA, ih]

/-- Lookup through a list append searches left first. -/
theorem lookupA_append (m m2 : List (String × Upcoming)) (k : String) :
    lookupA (m ++ m2) k =
      match lookupA m k with
      | some v => some v
      | none => lookupA m2 k := by
  induction m with
  | nil => rfl
  | cons p rest ih =>
    by_cases hp : p.1 = k
    · simp [lookupA, hp]
    · simp [lookupA, hp, ih]

/-- Looking up the replaced key after an in-place value update. -/
theorem lookup_mapReplace (m : List (String × Upcoming)) (k : String) (v : Upcoming) :
    lookupA (m.map fun p => if p.1 = k then (k, v) else p) k =
      (lookupA m k).map (fun _ => v) := by
  induction m with
  | nil => rfl
  | cons p rest ih =>
    by_cases hp : p.1 = k
    · simp [lookupA, hp]
    · simp [lookupA, hp, ih]

/-- Looking up a different key after an in-place value update. -/
theorem lookup_mapReplace_ne (m : List (String × Upcoming)) (k k2 : String)
    (v : Upcoming) (h : k2 ≠ k) :
    lookupA (m.map fun p => if p.1 = k then (k, v) else p) k2 = lookupA m k2 := by
  induction m with
  | nil => rfl
  | cons p rest ih =>
    by_cases hp : p.1 = k
    · simp [lookupA, hp, if_neg (Ne.symm h), if_neg (hp ▸ Ne.symm h), ih]
    · by_cases hp2 : p.1 = k2
      · simp [lookupA, hp, hp2, h]
      · simp [lookupA, hp, hp2, ih]

/-- Removing the key just updated in place removes the original entries. -/
theorem dictRemove_mapReplace_self (m : List (String × Upcoming)) (k : String)
    (v : Upcoming) :
    dictRemove (m.map fun p => if p.1 = k then (k, v) else p) k = dictRemove m k := by
  induction m with
  | nil => rfl
  | cons p rest ih =>
    simp only [dictRemove, ne_eq, decide_not] at ih ⊢
    by_cases hp : p.1 = k
    · simp [List.filter_cons, hp, ih]
    · simp [List.filter_cons, hp, ih]

/-- In-place update commutes with removal of a different key. -/
theorem dictRemove_mapReplace_comm (m : List (String × Upcoming)) (k k2 : String)
    (v : Upcoming) (h : k2 ≠ k) :
    dictRemove (m.map fun p => if p.1 = k then (k, v) else p) k2 =
      ((dictRemove m k2).map fun p => if p.1 = k then (k, v) else p) := by
  induction m with
  | nil => rfl
  | cons p rest ih =>
    simp only [dictRemove, ne_eq, decide_not] at ih ⊢
    by_cases hp : p.1 = k
    · simp [List.filter_cons, hp, Ne.symm h, ih]
    · by_cases hp2 : p.1 = k2
      · simp [List.filter_cons, hp, hp2, h, Ne.symm h, ih]
      · simp [List.filter_cons, hp, hp2, h, Ne.symm h, ih]

/-- A removed key is no longer found. -/
theorem lookupA_dictRemove_self (m : List (String × Upcoming)) (k : String) :
    lookupA (dictRemove m k) k = none := by
  induction m with
  | nil => rfl
  | cons p rest ih =>
    by_cases hp : p.1 = k
    · simpa [dictRemove, List.filter_cons, hp] using ih
    · simpa [dictRemove, List.filter_cons, hp, lookupA] using ih

/-- Removal of a different key does not change a lookup. -/
theorem lookupA_dictRemove_ne (m : List (String × Upcoming)) (k k2 : String)
    (h : k ≠ k2) : lookupA (dictRemove m k2) k = lookupA m k := by
  induction m with
  | nil => rfl
  | cons p rest ih =>
    simp only [dictRemove, ne_eq, decide_not] at ih ⊢
    by_cases hp : p.1 = k2
    · simp [List.filter_cons, hp, lookupA, h, Ne.symm h, ih]
    · by_cases hpk : p.1 = k
      · simp [List.filter_cons, hp, lookupA, hpk, h, Ne.symm h]
      · simp [List.filter_cons, hp, lookupA, hpk, ih]

/-- Removing an absent key is the identity. -/
theorem dictRemove_of_lookup_none (m : List (String × Upcoming)) (k : String)
    (h : lookupA m k = none) : dictRemove m k = m := by
  induction m with
  | nil => rfl
  | cons p rest ih =>
    by_cases hp : p.1 = k
    · rw [lookupA, if_pos hp] at h
      cases h
    · rw [lookupA, if_neg hp] at h
      simp [dictRemove, List.filter_cons, hp] at ih ⊢
      exact ih h

/-- Updating an absent key in place is the identity. -/
theorem mapReplace_of_lookup_none (m : List (String × Upcoming)) (k : String)
    (v : Upcoming) (h : lookupA m k = none) :
    (m.map fun p => if p.1 = k then (k, v) else p) = m := by
  induction m with
  | nil => rfl
  | cons p rest ih =>
    by_cases hp : p.1 = k
    · rw [lookupA, if_pos hp] at h
      cases h
    · rw [lookupA, if_neg hp] at h
      simp [hp, ih h]

/-- The just-assigned key is found with its new value. -/
theorem lookupA_dictInsert_self (m : List (String × Upcoming)) (k : String)
    (v : Upcoming) : lookupA (dictInsert m k v) k = some v := by
  unfold dictInsert
  rw [any_key]
  cases hk : lookupA m k with
  | none =>
    simp only [hk, Option.isSome_none, Bool.false_eq_true, if_false]
    rw [lookupA_append, hk]
    simp [lookupA]
  | some w =>
    simp only [hk, Option.isSome_some, if_true]
    rw [lookup_mapReplace, hk]
    rfl

/-- Assigning one key leaves lookups of other keys unchanged. -/
theorem lookupA_dictInsert_ne (m : List (String × Upcoming)) (k k2 : String)
    (v : Upcoming) (h : k2 ≠ k) :
    lookupA (dictInsert m k v) k2 = lookupA m k2 := by
  unfold dictInsert
  rw [any_key]
  cases hk : lookupA m k with
  | none =>
    simp only [hk, Option.isSome_none, Bool.false_eq_true, if_false]
    rw [lookupA_append]
    cases hk2 : lookupA m k2 with
    | none => simp [lookupA, h, Ne.symm h]
    | some w => rfl
  | some w =>
    simp only [hk, Option.isSome_some, if_true]
    exact lookup_mapReplace_ne m k k2 v h

/-- Deleting a key directly after assigning it deletes the original entries. -/
theorem dictRemove_dictInsert_self (m : List (String × Upcoming)) (k : String)
    (v : Upcoming) : dictRemove (dictInsert m k v) k = dictRemove m k := by
  unfold dictInsert
  rw [any_key]
  cases hk : lookupA m k with
  | none =>
    simp only [hk, Option.isSome_none, Bool.false_eq_true, if_false]
    unfold dictRemove
    rw [List.filter_append]
    simp
  | some w =>
    simp only [hk, Option.isSome_some, if_true]
    exact dictRemove_mapReplace_self m k v

/-- Assignment commutes with deletion of a different key. -/
theorem dictRemove_dictInsert_ne (m : List (String × Upcoming)) (k k2 : String)
    (v : Upcoming) (h : k2 ≠ k) :
    dictRemove (dictInsert m k v) k2 = dictInsert (dictRemove m k2) k v := by
  unfold dictInsert
  rw [any_key, any_key, lookupA_dictRemove_ne _ _ _ (Ne.symm h)]
  cases hk : lookupA m k with
  | none =>
    simp only [hk, Option.isSome_none, Bool.false_eq_true, if_false]
    unfold dictRemove
    rw [List.filter_append]
    simp [Ne.symm h]
  | some w =>
    simp only [hk, Option.isSome_some, if_true]
    exact dictRemove_mapReplace_comm m k k2 v h

/-- Assignment of a key absent from the head passes over the head. -/
theorem dictInsert_cons_ne (p : String × Upcoming) (m : List (String × Upcoming))
    (k : String) (v : Upcoming) (h : p.1 ≠ k) :
    dictInsert (p :: m) k v = p :: dictInsert m k v := by
  unfold dictInsert
  rw [any_key, any_key]
  have hsame : lookupA (p :: m) k = lookupA m k := by rw [lookupA, if_neg h]
  rw [hsame]
  cases hk : lookupA m k with
  | none => simp [hk]
  | some w => simp [hk, h]

/-- Assignment whose key is the head key updates the head in place. -/
theorem dictInsert_cons_self (k : String) (w v : Upcoming) (m : List (String × Upcoming)) :
    dictInsert ((k, w) :: m) k v =
      (k, v) :: (m.map fun p => if p.1 = k then (k, v) else p) := by
  unfold dictInsert
  simp [List.any_cons]

/-- Spec-side collapse of a list of Upcoming entries to one entry per
trip_id: the first occurrence keeps its position, the last occurrence
provides the value. -/
def dedupKeepLast : List Upcoming → List (String × Upcoming)
  | [] => []
  | u :: rest =>
    match lookupA (dedupKeepLast rest) u.trip_id with
    | some v => (u.trip_id, v) :: dictRemove (dedupKeepLast rest) u.trip_id
    | none => (u.trip_id, u) :: dedupKeepLast rest

/-- Appending one entry to the collapse is a dict assignment. -/
theorem dedupKeepLast_append (l : List Upcoming) (u : Upcoming) :
    dedupKeepLast (l ++ [u]) = dictInsert (dedupKeepLast l) u.trip_id u := by
  induction l with
  | nil => rfl
  | cons v l ih =>
    rw [List.cons_append, dedupKeepLast, ih, dedupKeepLast]
    by_cases hid : v.trip_id = u.trip_id
    · rw [hid, lookupA_dictInsert_self]
      simp only []
      rw [dictRemove_dictInsert_self]
      cases hk : lookupA (dedupKeepLast l) u.trip_id with
      | none =>
        simp only []
        rw [dictRemove_of_lookup_none _ _ hk, dictInsert_cons_self,
          mapReplace_of_lookup_none _ _ _ hk]
      | some w =>
        simp only []
        rw [dictInsert_cons_self,
          mapReplace_of_lookup_none _ _ _ (lookupA_dictRemove_self _ _)]
    · rw [lookupA_dictInsert_ne _ _ _ _ hid]
      cases hk : lookupA (dedupKeepLast l) v.trip_id with
      | none =>
        simp only []
        rw [dictInsert_cons_ne _ _ _ _ hid]
      | some w =>
        simp only []
        rw [dictRemove_dictInsert_ne _ _ _ _ hid, dictInsert_cons_ne _ _ _ _ hid]

/-- The dict comprehension of get_upcoming builds exactly the spec-side
collapse. -/
theorem buildKnown_eq_dedupKeepLast (l : List Upcoming) :
    buildKnown l = dedupKeepLast l := by
  induction l using List.reverseRecOn with
  | nil => rfl
  | append_singleton l u ih =>
    unfold buildKnown
    rw [List.foldl_append]
    simp only [List.foldl_cons, List.foldl_nil]
    rw [dedupKeepLast_append]
    unfold buildKnown at ih
    rw [ih]

/-- The deletion loop over the live entries is a filter by live trip_ids. -/
theorem foldl_dictRemove (live : List Upcoming) (m : List (String × Upcoming)) :
    live.foldl (fun m t => dictRemove m t.trip_id) m =
      m.filter (fun p => !((live.map (fun u => u.trip_id)).contains p.1)) := by
  induction live generalizing m with
  | nil => simp
  | cons t rest ih =>
    rw [List.foldl_cons, ih]
    unfold dictRemove
    rw [List.filter_filter]
    congr 1
    funext p
    simp only [List.map_cons, List.contains_cons, Bool.not_or, ne_eq, decide_not,
      beq_iff_eq]
    rw [Bool.and_comm]
    congr 1

/-- Claim C3 as stated: live entries followed by every scheduled entry whose
trip_id is not among the live entries, canceled removed, sorted by
due_in_seconds. -/
def get_upcoming_claim (db : Database) (interesting_stops : List String) (nowT : Int)
    (feed : List FeedEntity) : Except Unit (List Upcoming) := do
  let scheduled ← get_scheduled db nowT interesting_stops
  let live ← get_live db interesting_stops nowT feed
  pure (sortByDue ((live ++ scheduled.filter
    (fun s => !((live.map (fun u => u.trip_id)).contains s.trip_id))).filter
    (fun t => !t.canceled)))

/-- Claim C3 amended: the scheduled entries are first collapsed to one entry
per trip_id (first-occurrence position, last-occurrence value) before the
live trip_ids are excluded. -/
def get_upcoming_amended (db : Database) (interesting_stops : List String) (nowT : Int)
    (feed : List FeedEntity) : Except Unit (List Upcoming) := do
  let scheduled ← get_scheduled db nowT interesting_stops
  let live ← get_live db interesting_stops nowT feed
  pure (sortByDue ((live ++ ((dedupKeepLast scheduled).filter
    (fun p => !((live.map (fun u => u.trip_id)).contains p.1))).map
      (fun p => p.2)).filter
    (fun t => !t.canceled)))

/-- Test fixture: the call of trip T at stop A. -/
def rowA : StopTimeRow :=
  { trip_id := "T", stop_id := "A", stop_sequence := "1",
    arrival_time := "10:00:00", departure_time := "10:00:00" }

/-- Test fixture: the call of trip T at stop B. -/
def rowB : StopTimeRow :=
  { trip_id := "T", stop_id := "B", stop_sequence := "2",
    arrival_time := "10:30:00", departure_time := "10:30:00" }

/-- Test fixture: a trip calling at the two interesting stops A and B. -/
def tripT : Trip :=
  { trip_id := "T", trip_headsign := "City", direction_id := "0",
    service_id := "ALL", route := routeR, stop_times := [rowA, rowB] }

/-- Test fixture: a database holding trip T indexed under both stops. -/
def dbAB : Database :=
  { stops_db := [("A", [rowA]), ("B", [rowB])]
    trip_db := [("T", tripT)]
    route_db := [("R1", routeR)]
    calendar_db := [("ALL", svcAll)]
    exceptions_db := [] }

/-- Counterexample for claim C3: with two interesting stops served by the
same trip and an empty feed, get_scheduled returns two entries with the same
trip_id; the code keeps a single collapsed entry while the claim as stated
would keep both, so the two results differ. -/
theorem c3_counterexample :
    get_upcoming dbAB ["A", "B"] (100 * 86400 + 9 * 3600) [] ≠
      get_upcoming_claim dbAB ["A", "B"] (100 * 86400 + 9 * 3600) [] := by decide

/-- Claim C3 (amended): get_upcoming equals the live entries followed by the
scheduled entries collapsed to one per trip_id (first-occurrence position,
last-occurrence value) restricted to trip_ids not occurring among the live
entries, with canceled entries removed and the whole list stably sorted
ascending by due_in_seconds; in particular every canceled trip is dropped
from the merged result. -/
theorem c3_merge (db : Database) (stops : List String) (nowT : Int)
    (feed : List FeedEntity) :
    get_upcoming db stops nowT feed = get_upcoming_amended db stops nowT feed := by
  unfold get_upcoming get_upcoming_amended
  cases hs : get_scheduled db nowT stops with
  | error e => simp [Bind.bind, Except.bind]
  | ok sched =>
    cases hl : get_live db stops nowT feed with
    | error e => simp [Bind.bind, Except.bind]
    | ok live =>
      simp only [Bind.bind, Except.bind]
      rw [buildKnown_eq_dedupKeepLast, foldl_dictRemove]
